import Mathlib

/-!
Verification of the candidate-assessment lifecycle backend.

This file gives a shallow embedding of the core of the backend under
review: the invitation lifecycle state machine (the start, submit,
admin mark-submitted and admin revoke endpoints from
backend/app/routes/candidate.py and backend/app/routes/invitations.py),
the git mirror branch-resolution step of
GitHubAppClient._clone_and_push (backend/app/github_app.py), and the
diff endpoint get_repo_diff (backend/app/routes/reviews.py).

Persistence is modelled by an explicit DB record holding the slice of
the database a single invitation can touch.  The FastAPI session
dependency (backend/app/database.py, get_session) opens a session and
never commits on its own: a handler that raises an HTTPException before
calling session.commit() leaves the persisted state untouched, because
closing the session discards all pending changes.  Each handler is
therefore embedded as a pure function from the committed DB state to
the pair of the next committed DB state and the HTTP outcome; branches
that raise before the commit return the input DB unchanged, and the
branch that reaches session.commit() returns the mutated DB.

Outbound GitHub calls are modelled by an oracle record fixing the
outcome of each call the handler can make.  Timestamps are integers
(seconds); timedeltas are integer numbers of seconds.
-/

namespace App

/-- Invitation lifecycle states, from models.InvitationStatus. -/
inductive InvitationStatus where
  | sent
  | accepted
  | started
  | submitted
  | expired
  | revoked
deriving DecidableEq

/-- Row of the invitations table, restricted to the columns the
lifecycle handlers read or write. -/
structure Invitation where
  id : Nat
  status : InvitationStatus
  start_deadline : Option Int
  complete_deadline : Option Int
  sent_at : Option Int
  started_at : Option Int
  submitted_at : Option Int
  expired_at : Option Int
deriving DecidableEq

/-- Row of the access_tokens table (models.AccessToken). -/
structure AccessToken where
  invitation_id : Nat
  repo_full_name : String
  opaque_token_hash : String
  expires_at : Int
  revoked : Bool
deriving DecidableEq

/-- Row of the candidate_repos table (models.CandidateRepo). -/
structure CandidateRepo where
  invitation_id : Nat
  seed_sha_pinned : String
  repo_full_name : String
  repo_html_url : Option String
  github_repo_id : Option Int
  active : Bool
  archived : Bool
deriving DecidableEq

/-- Row of the seeds table, restricted to the fields the start handler
touches (models.Seed). -/
structure Seed where
  org_id : Nat
  seed_repo_full_name : String
  default_branch : Option String
  latest_main_sha : Option String
deriving DecidableEq

/-- Row of the assessments table, restricted to what the candidate
handlers use; the seed relationship is inlined. -/
structure Assessment where
  seed : Option Seed
  time_to_complete : Int
deriving DecidableEq

/-- Row of the submissions table (models.Submission). -/
structure Submission where
  invitation_id : Nat
  final_sha : String
  repo_html_url : Option String
  video_url : Option String
deriving DecidableEq

/-- The slice of the database one invitation can reach: the invitation
row, its assessment (with seed), its candidate repo, its access tokens
and its submissions. -/
structure DB where
  invitation : Invitation
  assessment : Option Assessment
  candidate_repo : Option CandidateRepo
  access_tokens : List AccessToken
  submissions : List Submission
deriving DecidableEq

/-- Python falsy-or on an optional string: both None and the empty
string fall through to the default, as in (value or default). -/
def pyOrStr (v : Option String) (dflt : String) : String :=
  match v with
  | none => dflt
  | some s => if s = "" then dflt else s

/-- Python falsy-or where the fallback is itself optional, as in
(payload.repo_html_url or candidate_repo.repo_html_url). -/
def pyOrOpt (a b : Option String) : Option String :=
  match a with
  | none => b
  | some s => if s = "" then b else some s

/-- Python truthiness of an optional string, as used by the guard
(if not assessment.seed.latest_main_sha). -/
def truthyStr (v : Option String) : Bool :=
  match v with
  | none => false
  | some s => !(s == "")

/-- Model of utils.hash_token.  The SHA-256 hex digest is abstracted to
an injective tagging function; no claim depends on the digest value,
only on the fact that the raw secret is stored hashed. -/
def hash_token (raw_token : String) : String :=
  "sha256:" ++ raw_token

/-- Outcome of one outbound GitHub call: success, or a raised
GitHubAppError carrying a message. -/
inductive GhResult (α : Type) where
  | ok (value : α)
  | err (msg : String)
deriving DecidableEq

/-- True when the call raised GitHubAppError. -/
def GhResult.isErr {α : Type} : GhResult α → Bool
  | .ok _ => false
  | .err _ => true

/-- Repository metadata returned by GitHub (github_app.GitHubRepository,
restricted to the fields the start handler persists). -/
structure RepoInfo where
  id : Int
  full_name : String
  html_url : Option String
deriving DecidableEq

/-- Oracle fixing the outcome of every GitHub call a lifecycle handler
can make during one request. -/
structure GitHubOracle where
  refresh_branch_sha : GhResult String
  create_candidate_repository : GhResult RepoInfo
  create_repository_access_token : GhResult (String × Int)
  archive_repository : GhResult Unit
deriving DecidableEq

/-- Result of a handler: a 2xx response body, or a raised HTTPException
with its status code and detail string. -/
inductive HandlerOutcome (α : Type) where
  | ok (value : α)
  | httpError (status : Nat) (detail : String)
deriving DecidableEq

/-- True when the handler returned a 2xx body. -/
def HandlerOutcome.isOk {α : Type} : HandlerOutcome α → Bool
  | .ok _ => true
  | .httpError _ _ => false

/-- Body of the start response (schemas.StartAssessmentResponse,
restricted to the fields the claims mention). -/
structure StartAssessmentResponse where
  invitation_id : Nat
  status : InvitationStatus
  access_token : String
  access_token_expires_at : Int
deriving DecidableEq

/-- Body of the submit request (schemas.SubmitRequest). -/
structure SubmitRequest where
  final_sha : Option String
  repo_html_url : Option String
  video_url : Option String
deriving DecidableEq

/-- Body of the submit response, restricted to the fields the claims
mention. -/
structure SubmitResponse where
  invitation_id : Nat
  final_sha : String
  status : InvitationStatus
deriving DecidableEq

/-- The deadline guard of the start handler:
(invitation.start_deadline and now > invitation.start_deadline).
A missing deadline is falsy and skips the branch. -/
def deadlineElapsed (inv : Invitation) (now : Int) : Bool :=
  match inv.start_deadline with
  | none => false
  | some d => decide (d < now)

/-- Tail of the start handler from the token-revocation loop through
session.commit() (candidate.py lines 186 to 240): revoke every prior
access token, require GitHub metadata on the candidate repo, mint the
new installation token, persist the new AccessToken row and commit.
Error branches raise before the commit, so they return the input DB. -/
def startFinish (db : DB) (inv1 : Invitation) (assessment : Assessment) (seed1 : Seed)
    (candidate_repo : CandidateRepo) (gh : GitHubOracle) :
    DB × HandlerOutcome StartAssessmentResponse :=
  let tokens1 := db.access_tokens.map
    (fun t => if t.revoked then t else { t with revoked := true })
  match candidate_repo.github_repo_id with
  | none => (db, .httpError 500 "Candidate repository is missing GitHub metadata")
  | some _ =>
    match gh.create_repository_access_token with
    | .err msg => (db, .httpError 502 msg)
    | .ok pair =>
      let access_token : AccessToken :=
        { invitation_id := inv1.id
          repo_full_name := candidate_repo.repo_full_name
          opaque_token_hash := hash_token pair.1
          expires_at := pair.2
          revoked := false }
      let committed : DB :=
        { invitation := inv1
          assessment := some { assessment with seed := some seed1 }
          candidate_repo := some candidate_repo
          access_tokens := tokens1 ++ [access_token]
          submissions := db.submissions }
      (committed,
       .ok { invitation_id := inv1.id
             status := inv1.status
             access_token := pair.1
             access_token_expires_at := pair.2 })

/-- The start handler, candidate.py start_assessment (lines 116 to 240).
Branch order follows the source: deadline check (which commits the
expiry), started and submitted conflict check, assessment and seed
configuration checks, in-memory transition to started, branch-SHA
refresh, candidate repo provisioning or reuse, then startFinish.  The
best-effort notification email after the commit does not touch this DB
slice and is elided. -/
def start_assessment (db : DB) (now : Int) (gh : GitHubOracle) :
    DB × HandlerOutcome StartAssessmentResponse :=
  let invitation := db.invitation
  if deadlineElapsed invitation now then
    ({ db with invitation := { invitation with status := .expired, expired_at := some now } },
     .httpError 410 "Invitation start window has expired")
  else if invitation.status = .started ∨ invitation.status = .submitted then
    (db, .httpError 409 "Assessment already started")
  else
    match db.assessment with
    | none => (db, .httpError 400 "Assessment seed configuration missing")
    | some assessment =>
      match assessment.seed with
      | none => (db, .httpError 400 "Assessment seed configuration missing")
      | some seed =>
        if truthyStr seed.latest_main_sha = false then
          (db, .httpError 400 "Seed repository does not have a pinned main SHA")
        else
          let inv1 : Invitation :=
            { invitation with
                status := .started
                started_at := some now
                complete_deadline := some (now + assessment.time_to_complete) }
          match gh.refresh_branch_sha with
          | .err msg => (db, .httpError 502 msg)
          | .ok latest_seed_sha =>
            let seed1 :=
              if some latest_seed_sha = seed.latest_main_sha then seed
              else { seed with latest_main_sha := some latest_seed_sha }
            match db.candidate_repo with
            | none =>
              match gh.create_candidate_repository with
              | .err msg => (db, .httpError 502 msg)
              | .ok repo_info =>
                let candidate_repo : CandidateRepo :=
                  { invitation_id := invitation.id
                    seed_sha_pinned := latest_seed_sha
                    repo_full_name := repo_info.full_name
                    repo_html_url := repo_info.html_url
                    github_repo_id := some repo_info.id
                    active := true
                    archived := false }
                startFinish db inv1 assessment seed1 candidate_repo gh
            | some candidate_repo =>
                startFinish db inv1 assessment seed1 candidate_repo gh

/-- The submit handler, candidate.py submit_assessment (lines 243 to
322): requires a started invitation with a provisioned repo, records
the submission, revokes every access token, archives the repo
best-effort (archival failure still clears the active flag), and
commits.  The post-commit notification email is elided. -/
def submit_assessment (db : DB) (now : Int) (payload : SubmitRequest) (gh : GitHubOracle) :
    DB × HandlerOutcome SubmitResponse :=
  match db.assessment with
  | none => (db, .httpError 404 "Assessment not found")
  | some assessment =>
    if db.invitation.status ≠ .started then
      (db, .httpError 409 "Assessment is not in a started state")
    else
      match db.candidate_repo with
      | none => (db, .httpError 400 "Candidate repository has not been provisioned")
      | some candidate_repo =>
        match assessment.seed with
        | none => (db, .httpError 404 "Assessment seed not found")
        | some _ =>
          let inv1 := { db.invitation with
              status := .submitted
              submitted_at := some now }
          let final_sha := pyOrStr payload.final_sha candidate_repo.seed_sha_pinned
          let submission : Submission :=
            { invitation_id := db.invitation.id
              final_sha := final_sha
              repo_html_url := pyOrOpt payload.repo_html_url candidate_repo.repo_html_url
              video_url := payload.video_url }
          let tokens1 := db.access_tokens.map
            (fun t => if t.revoked then t else { t with revoked := true })
          let repo1 :=
            match gh.archive_repository with
            | .ok _ => { candidate_repo with archived := true, active := false }
            | .err _ => { candidate_repo with active := false }
          ({ invitation := inv1
             assessment := some assessment
             candidate_repo := some repo1
             access_tokens := tokens1
             submissions := db.submissions ++ [submission] },
           .ok { invitation_id := db.invitation.id
                 final_sha := final_sha
                 status := .submitted })

/-- The admin mark-submitted handler, invitations.py
mark_invitation_submitted (lines 139 to 198).  The Bool is the
status_changed flag: true exactly when a commit was issued.  The
response body is elided to Unit. -/
def mark_invitation_submitted (db : DB) (now : Int) :
    DB × Bool × HandlerOutcome Unit :=
  match db.assessment with
  | none => (db, false, .httpError 500 "Invitation missing assessment")
  | some _ =>
    if db.invitation.status ≠ .submitted then
      let inv1 := { db.invitation with
          status := .submitted
          submitted_at := some (db.invitation.submitted_at.getD now) }
      ({ db with invitation := inv1 }, true, .ok ())
    else
      (db, false, .ok ())

/-- The admin revoke handler, invitations.py revoke_invitation (lines
216 to 269).  The Bool is the status_changed flag: true exactly when a
commit was issued.  The response body is elided to Unit. -/
def revoke_invitation (db : DB) (now : Int) :
    DB × Bool × HandlerOutcome Unit :=
  match db.assessment with
  | none => (db, false, .httpError 500 "Invitation missing assessment")
  | some _ =>
    if db.invitation.status ≠ .revoked then
      let inv1 := { db.invitation with
          status := .revoked
          expired_at := some (db.invitation.expired_at.getD now) }
      ({ db with invitation := inv1 }, true, .ok ())
    else
      (db, false, .ok ())

/-- A freshly issued invitation as created by invitations.py
create_invitations: status sent, no lifecycle timestamps, no candidate
repo, no tokens, no submissions. -/
def freshInvitation (db : DB) : Bool :=
  db.invitation.status == .sent &&
  db.invitation.started_at == none &&
  db.invitation.submitted_at == none &&
  db.invitation.expired_at == none &&
  db.invitation.complete_deadline == none &&
  db.candidate_repo == none &&
  db.access_tokens == [] &&
  db.submissions == []

/-- A local branch ref of a mirrored clone: name (without the
refs/heads/ prefix) and head SHA. -/
structure HeadRef where
  name : String
  sha : String
deriving DecidableEq

/-- The ephemeral mirror clone seen by _clone_and_push: its local
branch refs, in the order git show-ref enumerates them. -/
structure LocalMirror where
  heads : List HeadRef
deriving DecidableEq

/-- Model of (git rev-parse refs/heads/branch) inside the mirror:
the head SHA when the branch ref exists, failure otherwise. -/
def revParseHead (repo : LocalMirror) (branch : String) : Option String :=
  (repo.heads.find? (fun h => h.name == branch)).map (fun h => h.sha)

/-- Branch resolution of GitHubAppClient._clone_and_push (github_app.py
lines 245 to 319), after a successful mirror clone: try to resolve
source_branch with rev-parse (an empty rev-parse output is coerced to
None and is fatal, since the show-ref fallback only runs when rev-parse
itself fails); on rev-parse failure fall back to the first ref listed
by (git show-ref --heads), correcting the branch name; with no branch
refs at all, raise GitHubAppError.  The remote set-url and mirror push
that follow are modelled as succeeding, and the workspace cleanup has
no observable state here; the returned pair is (branch sha, branch
name). -/
def clone_and_push (repo : LocalMirror) (source_branch : String) :
    GhResult (String × String) :=
  match revParseHead repo source_branch with
  | some sha =>
    if sha = "" then
      .err "Source repository branch not found. The repository may be empty or the branch does not exist."
    else
      .ok (sha, source_branch)
  | none =>
    match repo.heads with
    | [] =>
      .err "Source repository branch not found. The repository may be empty or the branch does not exist."
    | first :: _ => .ok (first.sha, first.name)

/-- One file entry of the GitHub compare response, with the optional
fields the handler reads via dict.get. -/
structure FileData where
  status : Option String
  additions : Nat
  deletions : Nat
  changes : Nat
  filename : Option String
  previous_filename : Option String
  patch : Option String
  blob_url : Option String
deriving DecidableEq

/-- Author block of one commit of the compare response. -/
structure CommitAuthor where
  name : Option String
  date : Option String
deriving DecidableEq

/-- One commit entry of the compare response. -/
structure CommitData where
  sha : Option String
  message : Option String
  author : CommitAuthor
deriving DecidableEq

/-- The GitHub compare response, restricted to the keys get_repo_diff
reads.  Commit objects are collapsed to their sha. -/
structure CompareData where
  base_commit_sha : Option String
  merge_base_commit_sha : Option String
  head_commit_sha : Option String
  files : List FileData
  commits : List CommitData
  total_commits : Nat
  html_url : Option String
deriving DecidableEq

/-- One entry of the diff response (schemas.DiffFile). -/
structure DiffFile where
  filename : String
  status : String
  additions : Nat
  deletions : Nat
  changes : Nat
  patch : Option String
  blobUrl : Option String
  previousFilename : Option String
deriving DecidableEq

/-- One commit of the diff response (schemas.DiffCommit).  The parsed
date is kept as its normalized ISO string. -/
structure DiffCommit where
  sha : String
  message : String
  author : String
  date : String
deriving DecidableEq

/-- The diff response (schemas.DiffResponse). -/
structure DiffResponse where
  files : List DiffFile
  totalAdditions : Nat
  totalDeletions : Nat
  totalChanges : Nat
  commits : List DiffCommit
  baseSha : Option String
  headSha : String
  htmlUrl : Option String
deriving DecidableEq

/-- Occurrence of one character list at the head of another, the base
step of the Python substring test. -/
def charsStartWith : List Char → List Char → Bool
  | [], _ => true
  | _ :: _, [] => false
  | p :: ps, c :: cs => p == c && charsStartWith ps cs

/-- Occurrence of the pattern at some position of the list, the Python
substring test on the underlying characters. -/
def charsContain (pat : List Char) : List Char → Bool
  | [] => charsStartWith pat []
  | c :: cs => charsStartWith pat (c :: cs) || charsContain pat cs

/-- Substring test (pat in s), used for the containment checks on
patch text and error messages. -/
def strContains (s pat : String) : Bool :=
  charsContain pat.data s.data

/-- Status classification of get_repo_diff: the closed set added,
removed, renamed, with every other upstream value defaulting to
modified. -/
def classifyStatus (s : Option String) : String :=
  if s = some "added" then "added"
  else if s = some "removed" then "removed"
  else if s = some "renamed" then "renamed"
  else "modified"

/-- Per-file body of the compare loop in get_repo_diff (reviews.py
lines 207 to 246): classify the status, synthesize a unified-diff
header when the upstream patch omits one (using /dev/null for the
added or removed side), and build the DiffFile entry. -/
def buildFileEntry (fd : FileData) : DiffFile :=
  let status := classifyStatus fd.status
  let filename := fd.filename.getD ""
  let previous_filename := pyOrStr fd.previous_filename filename
  let patch :=
    match fd.patch with
    | none => none
    | some p =>
      if p = "" then some p
      else if p.startsWith "diff --git" then some p
      else
        let old_path := if status ≠ "added" then previous_filename else "/dev/null"
        let new_path := if status ≠ "removed" then filename else "/dev/null"
        if strContains p "\n--- " then
          some ("diff --git a/" ++ old_path ++ " b/" ++ new_path ++ "\n" ++ p)
        else
          some ("diff --git a/" ++ old_path ++ " b/" ++ new_path ++
            "\n--- a/" ++ old_path ++ "\n+++ b/" ++ new_path ++ "\n" ++ p)
  { filename := filename
    status := status
    additions := fd.additions
    deletions := fd.deletions
    changes := fd.changes
    patch := patch
    blobUrl := fd.blob_url
    previousFilename := fd.previous_filename }

/-- The file loop of get_repo_diff: builds the DiffFile list while
accumulating total_additions and total_deletions from the per-file
counts, exactly as the Python for loop does. -/
def diffFilesPass : List FileData → List DiffFile × Nat × Nat
  | [] => ([], 0, 0)
  | fd :: rest =>
    let entry := buildFileEntry fd
    let r := diffFilesPass rest
    (entry :: r.1, fd.additions + r.2.1, fd.deletions + r.2.2)

/-- One commit of the response: truncated sha, first line of the
message, author name defaulting to Unknown, date string with the Z
suffix normalized. -/
def buildCommitEntry (cd : CommitData) : DiffCommit :=
  { sha := (cd.sha.getD "").take 7
    message := ((cd.message.getD "").splitOn "\n").headD ""
    author := cd.author.name.getD "Unknown"
    date := (cd.author.date.getD "").replace "Z" "+00:00" }

/-- head_sha_from_api of get_repo_diff:
(merge_base_commit or head_commit).get("sha") or head_branch. -/
def resolveHeadSha (cd : CompareData) (head_branch : String) : String :=
  pyOrStr
    (match cd.merge_base_commit_sha with
     | some s => some s
     | none => cd.head_commit_sha)
    head_branch

/-- Assembly of the diff response from a successful compare (reviews.py
lines 194 to 274). -/
def buildDiffResponse (cd : CompareData) (head_branch : String) : DiffResponse :=
  let fp := diffFilesPass cd.files
  { files := fp.1
    totalAdditions := fp.2.1
    totalDeletions := fp.2.2
    totalChanges := cd.total_commits
    commits := cd.commits.map buildCommitEntry
    baseSha := cd.base_commit_sha
    headSha := resolveHeadSha cd head_branch
    htmlUrl := cd.html_url }

/-- The detail strings get_repo_diff can put in an HTTPException, one
constructor per format string in the source.  couldNotCompareExc is
the inner exception handler's detail built from a caught exception
message (Could not compare repository: message, reviews.py line 160);
couldNotCompareBranch is the detail of the branch-or-commit-not-found
404 raised after two returned 404 responses (reviews.py line 151). -/
inductive DiffErrorDetail where
  | noCommits
  | noFirstSha
  | couldNotCompareExc (msg : String)
  | couldNotCompareBranch (head_branch : String) (first_sha : String)
  | repoOrBranchNotFound (repo_full_name : String)
  | githubApiError (msg : String)
deriving DecidableEq

/-- Status and parsed body of the upstream GitHub response to one
compare request, as the wire delivers it, before _request interprets
it. -/
inductive UpstreamCompare where
  | http200 (data : CompareData)
  | http404 (body : String)
  | httpOther (code : Nat) (body : String)
deriving DecidableEq

/-- A returned httpx response to a compare request: status code and
parsed JSON body. -/
structure CompareResponse where
  status_code : Nat
  data : CompareData
deriving DecidableEq

/-- One compare request as issued by get_repo_diff through
GitHubAppClient._request with expected_status [200, 404]
(github_app.py lines 171 to 207).  A status outside the expected list
raises GitHubAppError from the membership check; after that check,
response.raise_for_status() is called on every response, so the
expected 404 also raises GitHubAppError, with the same message format.
Only a 200 response is ever returned to the caller. -/
def request_compare (path : String) : UpstreamCompare → GhResult CompareResponse
  | .http200 data => .ok { status_code := 200, data := data }
  | .http404 body =>
    .err ("GitHub API request to " ++ path ++ " failed with 404: " ++ body)
  | .httpOther code body =>
    .err ("GitHub API request to " ++ path ++ " failed with " ++ toString code ++ ": " ++ body)

/-- Oracle for one run of get_repo_diff: the sha fields of the commit
list response (newest first, as GitHub returns them), and the upstream
status of the compare request in each direction. -/
structure DiffOracle where
  commits_newest_first : List (Option String)
  compare_forward : UpstreamCompare
  compare_backward : UpstreamCompare
deriving DecidableEq

/-- The not-found classifier used by both exception handlers of
get_repo_diff: ("404" in message or "Not Found" in message). -/
def isNotFoundMessage (msg : String) : Bool :=
  strContains msg "404" || strContains msg "Not Found"

/-- The diff endpoint, reviews.py get_repo_diff (lines 26 to 274), from
the commit-list fetch onward: take the oldest listed commit as the
compare base and request the compare through request_compare.  A
raised GitHubAppError from the compare is caught by the inner
(except Exception) handler: when its message matches the not-found
classifier the handler answers 404 with the could-not-compare detail
built from the message; otherwise it re-raises and the outer
GitHubAppError handler applies the same classifier, which necessarily
fails again, mapping to 502.  The source then tests
response.status_code == 404 on the returned response and retries the
compare with swapped operands; that branch is kept here exactly as
written, although request_compare never returns a 404 response (see
request_compare_only_200), so the swap retry is dead code.  The repo
lookup, authorization and installation resolution preceding all this,
which do not touch the compare protocol, are elided. -/
def get_repo_diff (oracle : DiffOracle) (repo_full_name head_branch : String) :
    Except (Nat × DiffErrorDetail) DiffResponse :=
  match oracle.commits_newest_first.getLast? with
  | none => .error (404, .noCommits)
  | some first_sha_opt =>
    if truthyStr first_sha_opt = false then
      .error (404, .noFirstSha)
    else
      let first_sha := first_sha_opt.getD ""
      let compare_url :=
        "/repos/" ++ repo_full_name ++ "/compare/" ++ first_sha ++ "..." ++ head_branch
      match request_compare compare_url oracle.compare_forward with
      | .err msg =>
        if isNotFoundMessage msg then
          .error (404, .couldNotCompareExc msg)
        else
          .error (502, .githubApiError msg)
      | .ok response =>
        if response.status_code = 404 then
          let compare_url2 :=
            "/repos/" ++ repo_full_name ++ "/compare/" ++ head_branch ++ "..." ++ first_sha
          match request_compare compare_url2 oracle.compare_backward with
          | .err msg =>
            if isNotFoundMessage msg then
              .error (404, .couldNotCompareExc msg)
            else
              .error (502, .githubApiError msg)
          | .ok response2 =>
            if response2.status_code = 404 then
              .error (404, .couldNotCompareBranch head_branch first_sha)
            else
              .ok (buildDiffResponse response2.data head_branch)
        else
          .ok (buildDiffResponse response.data head_branch)

/-- DB states reachable from a freshly issued invitation through any
sequence of the four lifecycle operations, each with arbitrary request
time, payload and GitHub outcomes. -/
inductive Reachable : DB → Prop where
  | init (db : DB) (h : freshInvitation db = true) : Reachable db
  | start (db : DB) (now : Int) (gh : GitHubOracle) (h : Reachable db) :
      Reachable (start_assessment db now gh).1
  | submit (db : DB) (now : Int) (payload : SubmitRequest) (gh : GitHubOracle)
      (h : Reachable db) : Reachable (submit_assessment db now payload gh).1
  | markSubmitted (db : DB) (now : Int) (h : Reachable db) :
      Reachable (mark_invitation_submitted db now).1
  | revoke (db : DB) (now : Int) (h : Reachable db) :
      Reachable (revoke_invitation db now).1

/-! Concrete inputs used by the witnesses and counterexamples below. -/

/-- A seed with a pinned main SHA. -/
def seedOk : Seed :=
  { org_id := 1
    seed_repo_full_name := "org/seed"
    default_branch := some "main"
    latest_main_sha := some "sha0" }

/-- An assessment over seedOk with a one hour completion window. -/
def assessmentOk : Assessment :=
  { seed := some seedOk, time_to_complete := 3600 }

/-- A freshly sent invitation with a start deadline at t = 100. -/
def invSent : Invitation :=
  { id := 42
    status := .sent
    start_deadline := some 100
    complete_deadline := none
    sent_at := some 0
    started_at := none
    submitted_at := none
    expired_at := none }

/-- DB slice of a freshly sent invitation. -/
def dbSent : DB :=
  { invitation := invSent
    assessment := some assessmentOk
    candidate_repo := none
    access_tokens := []
    submissions := [] }

/-- Candidate repository metadata returned by GitHub. -/
def repoInfoOk : RepoInfo :=
  { id := 777
    full_name := "org/cand"
    html_url := some "https://github.com/org/cand" }

/-- A GitHub oracle in which every call succeeds. -/
def ghAllOk : GitHubOracle :=
  { refresh_branch_sha := .ok "sha1"
    create_candidate_repository := .ok repoInfoOk
    create_repository_access_token := .ok ("tok", 9999)
    archive_repository := .ok () }

/-- A GitHub oracle in which the seed branch-SHA refresh raises. -/
def ghRefreshFails : GitHubOracle :=
  { ghAllOk with refresh_branch_sha := .err "boom" }

/-- A started invitation (as left by a successful start at t = 10). -/
def invStarted : Invitation :=
  { invSent with
      status := .started
      started_at := some 10
      complete_deadline := some 3610 }

/-- The candidate repo provisioned for invStarted. -/
def candRepoStarted : CandidateRepo :=
  { invitation_id := 42
    seed_sha_pinned := "sha1"
    repo_full_name := "org/cand"
    repo_html_url := some "https://github.com/org/cand"
    github_repo_id := some 777
    active := true
    archived := false }

/-- DB slice of a started invitation holding one live access token. -/
def dbStarted : DB :=
  { invitation := invStarted
    assessment := some assessmentOk
    candidate_repo := some candRepoStarted
    access_tokens :=
      [{ invitation_id := 42
         repo_full_name := "org/cand"
         opaque_token_hash := hash_token "tok"
         expires_at := 9999
         revoked := false }]
    submissions := [] }

/-- DB slice of a submitted invitation. -/
def dbSubmitted : DB :=
  { dbStarted with
      invitation := { invStarted with status := .submitted, submitted_at := some 20 }
      access_tokens :=
        [{ invitation_id := 42
           repo_full_name := "org/cand"
           opaque_token_hash := hash_token "tok"
           expires_at := 9999
           revoked := true }] }

/-- The state reached by starting dbSent at t = 10 (all GitHub calls
succeeding) and then calling the admin mark-submitted endpoint at
t = 20.  Every step is one of the lifecycle operations, so this state
is reachable. -/
def dbMarkedSubmitted : DB :=
  (mark_invitation_submitted (start_assessment dbSent 10 ghAllOk).1 20).1

/-- A mirror clone whose only branch is master. -/
def mirrorMasterOnly : LocalMirror :=
  { heads := [{ name := "master", sha := "abc123" }] }

/-- A compare body with two files, used to check the diff totals. -/
def compareSample : CompareData :=
  { base_commit_sha := some "base0"
    merge_base_commit_sha := none
    head_commit_sha := some "head0"
    files :=
      [{ status := some "added"
         additions := 3
         deletions := 0
         changes := 3
         filename := some "a.txt"
         previous_filename := none
         patch := some "@@ -0,0 +1,3 @@"
         blob_url := none },
       { status := some "weird"
         additions := 2
         deletions := 5
         changes := 7
         filename := some "b.txt"
         previous_filename := none
         patch := none
         blob_url := none }]
    commits := []
    total_commits := 4
    html_url := some "https://github.com/org/cand/compare/x...y" }

/-- A diff oracle for the failing input of the compare-fallback claim:
the forward compare 404s upstream while the swapped compare would
succeed with compareSample. -/
def diffOracleDeadSwap : DiffOracle :=
  { commits_newest_first := [some "h2", some "h1", some "aaa"]
    compare_forward := .http404 "Not Found"
    compare_backward := .http200 compareSample }

/-- An empty submit payload. -/
def submitNone : SubmitRequest :=
  { final_sha := none, repo_html_url := none, video_url := none }

/-! Helper lemmas shared by the claim theorems. -/

/-- The conditional revocation of one token in the revocation loops is
the same as unconditionally setting the revoked flag. -/
theorem revoke_if_eq (t : AccessToken) :
    (if t.revoked then t else { t with revoked := true }) = { t with revoked := true } := by
  cases t with
  | mk a b c d e => cases e <;> simp

/-- The token revocation loop revokes every token of the invitation. -/
theorem map_revoke_eq (l : List AccessToken) :
    l.map (fun t => if t.revoked then t else { t with revoked := true }) =
      l.map (fun t => { t with revoked := true }) := by
  induction l with
  | nil => rfl
  | cons a l ih => simp [ih, revoke_if_eq]

/-- A fully revoked token list has no live token. -/
theorem filter_revoked_map (l : List AccessToken) :
    (l.map (fun t => { t with revoked := true })).filter (fun t => !t.revoked) = [] := by
  induction l with
  | nil => rfl
  | cons a l ih => simp [ih]

/-- Every branch of the start handler either leaves the committed
state untouched or commits a state whose status is not submitted. -/
theorem start_result_cases (db : DB) (now : Int) (gh : GitHubOracle) :
    (start_assessment db now gh).1 = db ∨
      ((start_assessment db now gh).1).invitation.status ≠ InvitationStatus.submitted := by
  unfold start_assessment startFinish
  by_cases hd : deadlineElapsed db.invitation now = true
  · simp [hd]
  · by_cases hs : db.invitation.status = InvitationStatus.started ∨
        db.invitation.status = InvitationStatus.submitted
    · simp [hd, hs]
    · simp [hd, hs]
      repeat' split
      all_goals simp_all

/-- A submit request on an invitation that is not in the started state
never changes the committed state. -/
theorem submit_not_started_state (db : DB) (now : Int) (payload : SubmitRequest)
    (gh : GitHubOracle) (h : db.invitation.status ≠ InvitationStatus.started) :
    (submit_assessment db now payload gh).1 = db := by
  unfold submit_assessment
  split
  · rfl
  · rw [if_pos h]

/-- Every branch of the submit handler either leaves the committed
state untouched or commits a state with submitted_at set. -/
theorem submit_result_cases (db : DB) (now : Int) (payload : SubmitRequest) (gh : GitHubOracle) :
    (submit_assessment db now payload gh).1 = db ∨
      ((submit_assessment db now payload gh).1).invitation.submitted_at ≠ none := by
  unfold submit_assessment
  repeat' split
  all_goals simp_all

/-- Every branch of the admin mark-submitted handler either leaves the
committed state untouched or commits a state with submitted_at set. -/
theorem mark_result_cases (db : DB) (now : Int) :
    (mark_invitation_submitted db now).1 = db ∨
      ((mark_invitation_submitted db now).1).invitation.submitted_at ≠ none := by
  unfold mark_invitation_submitted
  repeat' split
  all_goals simp_all

/-- Every branch of the admin revoke handler either leaves the
committed state untouched or commits a state whose status is not
submitted. -/
theorem revoke_result_cases (db : DB) (now : Int) :
    (revoke_invitation db now).1 = db ∨
      ((revoke_invitation db now).1).invitation.status ≠ InvitationStatus.submitted := by
  unfold revoke_invitation
  repeat' split
  all_goals simp_all

/-- Projection of the per-file builder: the entry carries the upstream
additions count unchanged. -/
theorem buildFileEntry_additions (fd : FileData) :
    (buildFileEntry fd).additions = fd.additions := rfl

/-- Projection of the per-file builder: the entry carries the upstream
deletions count unchanged. -/
theorem buildFileEntry_deletions (fd : FileData) :
    (buildFileEntry fd).deletions = fd.deletions := rfl

/-- The running totals of the file loop equal the sums of the per-file
counts over the entries it builds. -/
theorem diffFilesPass_totals (l : List FileData) :
    (diffFilesPass l).2.1 = ((diffFilesPass l).1.map (fun f => f.additions)).sum ∧
    (diffFilesPass l).2.2 = ((diffFilesPass l).1.map (fun f => f.deletions)).sum := by
  induction l with
  | nil => simp [diffFilesPass]
  | cons fd rest ih =>
    simp [diffFilesPass, buildFileEntry_additions, buildFileEntry_deletions, ih.1, ih.2]

/-- _request never returns a 404 response to the compare caller:
raise_for_status converts the expected 404 into a raised
GitHubAppError, so the branch of get_repo_diff that tests
status_code == 404 on a returned response is unreachable. -/
theorem request_compare_only_200 (path : String) (u : UpstreamCompare)
    (resp : CompareResponse) (h : request_compare path u = .ok resp) :
    resp.status_code = 200 := by
  cases u with
  | http200 data =>
    simp [request_compare] at h
    rw [← h]
  | http404 body => simp [request_compare] at h
  | httpOther code body => simp [request_compare] at h

/-! Claim theorems. -/

/-- C1: a start request in which candidate-repository provisioning
fails (the branch-SHA refresh or the template-generate call raises a
GitHub error) aborts the start transition: the committed state is
exactly the input state, so the persisted status remains sent and no
partial mutation survives, and the handler reports an error rather
than success. -/
theorem start_provisioning_failure_rolls_back (db : DB) (now : Int) (gh : GitHubOracle)
    (h1 : db.invitation.status = InvitationStatus.sent)
    (h2 : deadlineElapsed db.invitation now = false)
    (h3 : gh.refresh_branch_sha.isErr = true ∨
      (db.candidate_repo = none ∧ gh.create_candidate_repository.isErr = true)) :
    (start_assessment db now gh).1 = db ∧
    ((start_assessment db now gh).1).invitation.status = InvitationStatus.sent ∧
    (start_assessment db now gh).2.isOk = false := by
  have hs : ¬(db.invitation.status = InvitationStatus.started ∨
      db.invitation.status = InvitationStatus.submitted) := by simp [h1]
  unfold start_assessment startFinish
  simp [h2, hs]
  repeat' split
  all_goals simp_all [GhResult.isErr, HandlerOutcome.isOk]

/-- C1 witness: a sent invitation whose branch-SHA refresh raises is
left untouched, in status sent, with an error response. -/
theorem start_provisioning_failure_rolls_back_witness :
    (start_assessment dbSent 10 ghRefreshFails).1 = dbSent ∧
    ((start_assessment dbSent 10 ghRefreshFails).1).invitation.status = InvitationStatus.sent ∧
    (start_assessment dbSent 10 ghRefreshFails).2.isOk = false :=
  start_provisioning_failure_rolls_back dbSent 10 ghRefreshFails rfl (by decide) (Or.inl rfl)

/-- C2 counterexample: a reachable invitation produced by a successful
start followed by the admin mark-submitted endpoint has status
submitted while its access token is still live, refuting the claim
that every reachable submitted invitation has all tokens revoked. -/
theorem submitted_with_live_token_reachable :
    Reachable dbMarkedSubmitted ∧
    dbMarkedSubmitted.invitation.status = InvitationStatus.submitted ∧
    dbMarkedSubmitted.access_tokens.any (fun t => !t.revoked) = true := by
  refine ⟨?_, by decide, by decide⟩
  exact Reachable.markSubmitted (start_assessment dbSent 10 ghAllOk).1 20
    (Reachable.start dbSent 10 ghAllOk (Reachable.init dbSent (by decide)))

/-- C2 (amended): for every invitation reachable through any sequence
of the operations, status submitted implies submitted_at is set.  The
token half of the original claim is refuted by the counterexample: the
admin mark-submitted endpoint does not revoke tokens. -/
theorem submitted_reachable_has_submitted_at (db : DB) (h : Reachable db)
    (hs : db.invitation.status = InvitationStatus.submitted) :
    db.invitation.submitted_at ≠ none := by
  revert hs
  induction h with
  | init db h0 =>
    intro hs
    simp [freshInvitation] at h0
    simp [h0.1] at hs
  | start db now gh hr ih =>
    intro hs
    rcases start_result_cases db now gh with he | hne
    · rw [he] at hs ⊢
      exact ih hs
    · exact absurd hs hne
  | submit db now payload gh hr ih =>
    intro hs
    rcases submit_result_cases db now payload gh with he | hne
    · rw [he] at hs ⊢
      exact ih hs
    · exact hne
  | markSubmitted db now hr ih =>
    intro hs
    rcases mark_result_cases db now with he | hne
    · rw [he] at hs ⊢
      exact ih hs
    · exact hne
  | revoke db now hr ih =>
    intro hs
    rcases revoke_result_cases db now with he | hne
    · rw [he] at hs ⊢
      exact ih hs
    · exact absurd hs hne

/-- C2 witness: the concrete reachable submitted state has its
submitted_at timestamp set. -/
theorem submitted_reachable_has_submitted_at_witness :
    dbMarkedSubmitted.invitation.status = InvitationStatus.submitted ∧
    dbMarkedSubmitted.invitation.submitted_at ≠ none :=
  ⟨by decide,
   submitted_reachable_has_submitted_at dbMarkedSubmitted
    (Reachable.markSubmitted (start_assessment dbSent 10 ghAllOk).1 20
      (Reachable.start dbSent 10 ghAllOk (Reachable.init dbSent (by decide))))
    (by decide)⟩

/-- C3 counterexample: an admin revoke on a submitted invitation moves
its status to revoked, refuting the claim that no event changes the
status of a submitted invitation. -/
theorem revoke_moves_submitted_to_revoked :
    dbSubmitted.invitation.status = InvitationStatus.submitted ∧
    ((revoke_invitation dbSubmitted 30).1).invitation.status = InvitationStatus.revoked :=
  ⟨rfl, by decide⟩

/-- C3 (amended): submitted, revoked and expired are terminal for
candidate submit requests (the committed status never changes), and
submitted is terminal for start requests whose start deadline has not
elapsed (409 conflict, state unchanged).  They are not terminal in
general: admin revoke and admin mark-submitted carry no terminal-state
guard, and the deadline check of the start handler runs before the
status check, so a late start request can expire a submitted or
revoked invitation. -/
theorem terminal_states_amended (db : DB) (now : Int) (payload : SubmitRequest)
    (gh : GitHubOracle)
    (h : db.invitation.status = InvitationStatus.submitted ∨
         db.invitation.status = InvitationStatus.revoked ∨
         db.invitation.status = InvitationStatus.expired) :
    ((submit_assessment db now payload gh).1).invitation.status = db.invitation.status ∧
    (db.invitation.status = InvitationStatus.submitted →
      deadlineElapsed db.invitation now = false →
      start_assessment db now gh = (db, .httpError 409 "Assessment already started")) := by
  constructor
  · have hns : db.invitation.status ≠ InvitationStatus.started := by
      rcases h with h | h | h <;> simp [h]
    rw [submit_not_started_state db now payload gh hns]
  · intro hsub hdl
    unfold start_assessment
    simp [hdl, hsub]

/-- C3 witness: on a concrete submitted invitation, a submit request
leaves the status unchanged and an in-window start request is rejected
as a conflict with no state change. -/
theorem terminal_states_amended_witness :
    ((submit_assessment dbSubmitted 30 submitNone ghAllOk).1).invitation.status =
      dbSubmitted.invitation.status ∧
    start_assessment dbSubmitted 30 ghAllOk =
      (dbSubmitted, .httpError 409 "Assessment already started") :=
  ⟨(terminal_states_amended dbSubmitted 30 submitNone ghAllOk (Or.inl rfl)).1,
   (terminal_states_amended dbSubmitted 30 submitNone ghAllOk (Or.inl rfl)).2 rfl (by decide)⟩

/-- C4 counterexample: a second start request on a started invitation
whose start deadline has already elapsed is not answered with a 409
conflict and does not leave the status unchanged: the deadline check
runs first and moves the invitation to expired with a 410. -/
theorem double_start_after_deadline_not_conflict :
    dbStarted.invitation.status = InvitationStatus.started ∧
    ((start_assessment dbStarted 200 ghAllOk).1).invitation.status = InvitationStatus.expired ∧
    (start_assessment dbStarted 200 ghAllOk).2 ≠
      HandlerOutcome.httpError 409 "Assessment already started" := by
  refine ⟨rfl, by decide, by decide⟩

/-- C4 (amended): a second start request on a started (or submitted)
invitation is rejected as a 409 conflict with the committed state
unchanged and no second candidate repo created, provided the start
deadline has not elapsed at the time of the request; when the deadline
has elapsed the deadline check runs first and the invitation is
instead expired with a 410. -/
theorem double_start_conflict (db : DB) (now : Int) (gh : GitHubOracle)
    (h1 : db.invitation.status = InvitationStatus.started ∨
      db.invitation.status = InvitationStatus.submitted)
    (h2 : deadlineElapsed db.invitation now = false) :
    start_assessment db now gh = (db, .httpError 409 "Assessment already started") := by
  unfold start_assessment
  simp [h2, h1]

/-- C4 witness: an in-window second start on a started invitation is a
409 conflict with the state unchanged. -/
theorem double_start_conflict_witness :
    start_assessment dbStarted 20 ghAllOk =
      (dbStarted, .httpError 409 "Assessment already started") :=
  double_start_conflict dbStarted 20 ghAllOk (Or.inl rfl) (by decide)

/-- C5: a start request on a sent invitation arriving after its start
deadline transitions the invitation to expired, sets expired_at, is
rejected with 410 Gone, and never starts the invitation. -/
theorem start_after_deadline_expires (db : DB) (now : Int) (gh : GitHubOracle) (d : Int)
    (h1 : db.invitation.status = InvitationStatus.sent)
    (h2 : db.invitation.start_deadline = some d)
    (h3 : d < now) :
    ((start_assessment db now gh).1).invitation.status = InvitationStatus.expired ∧
    ((start_assessment db now gh).1).invitation.expired_at = some now ∧
    (start_assessment db now gh).2 = .httpError 410 "Invitation start window has expired" ∧
    ((start_assessment db now gh).1).invitation.status ≠ InvitationStatus.started := by
  have hd : deadlineElapsed db.invitation now = true := by
    simp [deadlineElapsed, h2, h3]
  unfold start_assessment
  simp [hd]

/-- C5 witness: a sent invitation with deadline 100 receiving a start
request at 200 is expired with a 410. -/
theorem start_after_deadline_expires_witness :
    ((start_assessment dbSent 200 ghAllOk).1).invitation.status = InvitationStatus.expired ∧
    ((start_assessment dbSent 200 ghAllOk).1).invitation.expired_at = some 200 ∧
    (start_assessment dbSent 200 ghAllOk).2 =
      .httpError 410 "Invitation start window has expired" ∧
    ((start_assessment dbSent 200 ghAllOk).1).invitation.status ≠ InvitationStatus.started :=
  start_after_deadline_expires dbSent 200 ghAllOk 100 rfl rfl (by decide)

/-- C6: whenever a start request commits successfully, the committed
token list is the prior tokens all marked revoked plus the one newly
minted live token, so exactly one non-revoked access token exists for
the invitation after every successful start. -/
theorem start_success_single_live_token (db : DB) (now : Int) (gh : GitHubOracle)
    (db2 : DB) (resp : StartAssessmentResponse)
    (h : start_assessment db now gh = (db2, .ok resp)) :
    (∃ tok, tok.revoked = false ∧
      db2.access_tokens = db.access_tokens.map (fun t => { t with revoked := true }) ++ [tok]) ∧
    (db2.access_tokens.filter (fun t => !t.revoked)).length = 1 := by
  unfold start_assessment startFinish at h
  by_cases hd : deadlineElapsed db.invitation now = true
  · simp [hd] at h
  · by_cases hs : db.invitation.status = InvitationStatus.started ∨
        db.invitation.status = InvitationStatus.submitted
    · simp [hd, hs] at h
    · simp [hd, hs] at h
      repeat' split at h
      all_goals simp_all [map_revoke_eq, filter_revoked_map]
      all_goals obtain ⟨hdb, hresp⟩ := h
      all_goals subst hdb
      all_goals refine ⟨⟨_, rfl, rfl⟩, ?_⟩
      all_goals simp [filter_revoked_map]

/-- C6 witness: the successful start of dbSent leaves exactly one live
token, with all prior tokens revoked. -/
theorem start_success_single_live_token_witness :
    (∃ tok, tok.revoked = false ∧
      ((start_assessment dbSent 10 ghAllOk).1).access_tokens =
        dbSent.access_tokens.map (fun t => { t with revoked := true }) ++ [tok]) ∧
    (((start_assessment dbSent 10 ghAllOk).1).access_tokens.filter
        (fun t => !t.revoked)).length = 1 :=
  start_success_single_live_token dbSent 10 ghAllOk (start_assessment dbSent 10 ghAllOk).1
    { invitation_id := 42, status := .started, access_token := "tok",
      access_token_expires_at := 9999 }
    (by decide)

/-- C7: when the requested source branch is not a local branch ref of
the mirror clone, the clone-and-push operation selects the first
enumerated branch ref and returns its head SHA with the corrected
branch name, and fails with a fatal error when no branch refs exist at
all. -/
theorem mirror_branch_fallback (repo : LocalMirror) (hint : String)
    (habsent : revParseHead repo hint = none) :
    (repo.heads = [] → (clone_and_push repo hint).isErr = true) ∧
    (∀ first rest, repo.heads = first :: rest →
      clone_and_push repo hint = .ok (first.sha, first.name)) := by
  constructor
  · intro he
    simp [clone_and_push, habsent, he, GhResult.isErr]
  · intro f r he
    simp [clone_and_push, habsent, he]

/-- C7 witness: the spec test vector: hint main against a repo whose
only branch is master resolves to the SHA of master and reports the
name master. -/
theorem mirror_branch_fallback_witness :
    revParseHead mirrorMasterOnly "main" = none ∧
    clone_and_push mirrorMasterOnly "main" = .ok ("abc123", "master") :=
  ⟨by decide,
   (mirror_branch_fallback mirrorMasterOnly "main" (by decide)).2
     { name := "master", sha := "abc123" } [] rfl⟩

/-- C8: code-bug evidence, evaluating the handler at the failing
input.  The claim, the handler's own swap-retry code (reviews.py lines
137 to 152) and spec section 4.5 say a 404 on the first compare is
retried with swapped operands, and the could-not-compare 404 is
reported only when both directions fail.  The code cannot do this:
_request calls response.raise_for_status() even for the expected 404,
so the first 404 surfaces as a raised GitHubAppError whose message
contains 404, and the inner exception handler answers 404
could-not-compare immediately; the swap-retry branch is dead code.
Here the forward compare 404s while the swapped compare would succeed,
yet the response is the 404 error built from the raised message, not
the diff built from the swapped compare. -/
theorem diff_first_404_no_swap_retry :
    get_repo_diff diffOracleDeadSwap "org/cand" "main" =
      .error (404, .couldNotCompareExc
        "GitHub API request to /repos/org/cand/compare/aaa...main failed with 404: Not Found") ∧
    get_repo_diff diffOracleDeadSwap "org/cand" "main" ≠
      .ok (buildDiffResponse compareSample "main") := by
  refine ⟨rfl, fun hcontra => ?_⟩
  rw [show get_repo_diff diffOracleDeadSwap "org/cand" "main" =
      Except.error (404, DiffErrorDetail.couldNotCompareExc
        "GitHub API request to /repos/org/cand/compare/aaa...main failed with 404: Not Found")
    from rfl] at hcontra
  exact Except.noConfusion hcontra

/-- C9: the admin revoke operation is idempotent: after a first revoke
the invitation is revoked, and a second revoke performs no write (the
status_changed flag is false), returns the same state unchanged, and
so leaves expired_at at the value set by the first call. -/
theorem revoke_idempotent (db : DB) (t1 t2 : Int) (h : db.assessment.isSome = true) :
    revoke_invitation (revoke_invitation db t1).1 t2 =
      ((revoke_invitation db t1).1, false, .ok ()) ∧
    ((revoke_invitation db t1).1).invitation.status = InvitationStatus.revoked := by
  cases ha : db.assessment with
  | none => simp [ha] at h
  | some a =>
    by_cases hs : db.invitation.status = InvitationStatus.revoked
    · unfold revoke_invitation
      simp [ha, hs]
    · unfold revoke_invitation
      simp [ha, hs]

/-- C9 witness: revoking a concrete started invitation twice: the
second call is a no-op observing status revoked. -/
theorem revoke_idempotent_witness :
    revoke_invitation (revoke_invitation dbStarted 5).1 6 =
      ((revoke_invitation dbStarted 5).1, false, .ok ()) ∧
    ((revoke_invitation dbStarted 5).1).invitation.status = InvitationStatus.revoked :=
  revoke_idempotent dbStarted 5 6 rfl

/-- C10: in every diff response, totalAdditions and totalDeletions are
the sums of the per-file additions and deletions over the returned
files, while totalChanges is the total_commits count of the upstream
compare result. -/
theorem diff_totals_consistent (cd : CompareData) (head_branch : String) :
    (buildDiffResponse cd head_branch).totalAdditions =
      ((buildDiffResponse cd head_branch).files.map (fun f => f.additions)).sum ∧
    (buildDiffResponse cd head_branch).totalDeletions =
      ((buildDiffResponse cd head_branch).files.map (fun f => f.deletions)).sum ∧
    (buildDiffResponse cd head_branch).totalChanges = cd.total_commits := by
  refine ⟨?_, ?_, rfl⟩
  · exact (diffFilesPass_totals cd.files).1
  · exact (diffFilesPass_totals cd.files).2

end App
